import Mathlib

/-!
Verification of the rendering-and-delivery pipeline of the
universal-ticket-printer application.

Python strings are modelled as `List Char`; machine integers are `Nat`
with explicit bounds where Python raises on overflow; fallible code
returns `Option` / `Except`.
-/

/-- Models Python's whitespace test used by `str.split()` / `str.strip()`
(ASCII whitespace characters). -/
def pySpace (c : Char) : Bool :=
  c = ' ' || c = '\t' || c = '\n' || c = '\r' || c = '\x0b' || c = '\x0c'

/-- Accumulator worker for `splitWs`: `cur` holds the characters of the
current in-progress word, in reverse order. -/
def splitWsAux (cur : List Char) : List Char → List (List Char)
  | [] => if cur = [] then [] else [cur.reverse]
  | c :: cs =>
    if pySpace c then
      if cur = [] then splitWsAux [] cs
      else cur.reverse :: splitWsAux [] cs
    else
      splitWsAux (c :: cur) cs

/-- Models Python's `text.split()` (no argument): split on runs of
whitespace, discarding empty pieces. -/
def splitWs (s : List Char) : List (List Char) :=
  splitWsAux [] s

/-- Joining a list of words/lines with single spaces, the inverse
operation appearing in the spec's reconstruction property. -/
def joinSp : List (List Char) → List Char
  | [] => []
  | [w] => w
  | w :: ws => w ++ ' ' :: joinSp ws

/-- Models Python's `text.strip()`: remove leading and trailing
whitespace. -/
def pyStrip (s : List Char) : List Char :=
  ((s.dropWhile pySpace).reverse.dropWhile pySpace).reverse

/-- A loaded font, as used by the layout code. `measure` models
`_text_len(text, font)` (the pixel advance width reported by the font
library, an externally supplied pure function of the string);
`lineHeight` models `get_lh(font)`, that is
`int((ascent + descent) * LINE_HEIGHT_MULT)` computed from the font's
metrics (the metrics and the float multiplication live in the external
font library, so the result is modelled as a per-font constant). -/
structure Font where
  measure : List Char → Nat
  lineHeight : Nat

/-- Models `_text_len`: width measurement delegated to the font. -/
def _text_len (text : List Char) (font : Font) : Nat :=
  font.measure text

/-- The greedy accumulation loop of `_wrap`: `cur` is the line being
built, the remaining words are consumed one by one; a word is appended
to `cur` (with a single separating space) when the extended line still
measures within `max_px`, otherwise `cur` is emitted and the word
starts a new line. -/
def wrapLoop (font : Font) (max_px : Nat) (cur : List Char) :
    List (List Char) → List (List Char)
  | [] => [cur]
  | w :: ws =>
    if _text_len (cur ++ ' ' :: w) font ≤ max_px then
      wrapLoop font max_px (cur ++ ' ' :: w) ws
    else
      cur :: wrapLoop font max_px w ws

/-- Models `_wrap(text, font, max_px)`: split the text into
whitespace-delimited words (empty input yields one empty line), then
wrap greedily. -/
def _wrap (text : List Char) (font : Font) (max_px : Nat) :
    List (List Char) :=
  match splitWs text with
  | [] => [[]]
  | w :: ws => wrapLoop font max_px w ws

/-- `PRINT_WIDTH_PX` from the source. -/
def PRINT_WIDTH_PX : Nat := 576

/-- `MARGIN_T` from the source. -/
def MARGIN_T : Nat := 28

/-- `MARGIN_B` from the source. -/
def MARGIN_B : Nat := 40

/-- `MARGIN_L` from the source. -/
def MARGIN_L : Nat := 18

/-- `MARGIN_R` from the source. -/
def MARGIN_R : Nat := 18

/-- Models `render_receipt_image(title, body_lines, add_dt)` at the
level of the produced canvas geometry: the function returns the
`(width, height)` of the monochrome canvas it allocates
(`Image.new("L", (PRINT_WIDTH_PX, h), 255)`).  The drawing calls only
paint pixels and do not change the canvas size, so the claims about
canvas dimensions are decided entirely by this computation, which
follows the source line by line. -/
def render_receipt_image (fontTitle fontText fontTime : Font)
    (title : List Char) (body_lines : List (List Char)) (add_dt : Bool) :
    Nat × Nat :=
  let max_w := PRINT_WIDTH_PX - MARGIN_L - MARGIN_R
  let wrapped_title :=
    if title ≠ [] ∧ pyStrip title ≠ [] then
      _wrap (pyStrip title) fontTitle max_w
    else []
  let wrapped_body := (body_lines.map (fun l => _wrap l fontText max_w)).flatten
  let lh_title := fontTitle.lineHeight
  let lh_text := fontText.lineHeight
  let lh_time := fontTime.lineHeight
  let h1 := MARGIN_T
  let h2 := if wrapped_title ≠ [] then h1 + wrapped_title.length * lh_title + 10 else h1
  let h3 := if add_dt then h2 + lh_time else h2
  let h4 := if wrapped_body ≠ [] then h3 + wrapped_body.length * lh_text else h3
  let h5 := h4 + MARGIN_B
  (PRINT_WIDTH_PX, max h5 100)

/-- A JSON-compatible settings value, covering the value shapes used by
`DEFAULT_SETTINGS` (strings, integers, booleans). -/
inductive SVal where
  | str (s : String)
  | int (n : Nat)
  | bool (b : Bool)
deriving DecidableEq, Repr

/-- Python's truthiness test on a settings value, modelling
`if not ip:` / `if not host:` checks. -/
def pyTruthy : SVal → Bool
  | .str s => !s.isEmpty
  | .int n => n ≠ 0
  | .bool b => b

/-- A Python `dict` with string keys, modelled as an insertion-ordered
association list with unique keys maintained by `dictSet`. -/
abbrev Dict : Type := List (String × SVal)

/-- Lookup of a key in a dict (first, hence only, binding). -/
def dictLookup : Dict → String → Option SVal
  | [], _ => none
  | (k0, v0) :: rest, k => if k0 = k then some v0 else dictLookup rest k

/-- `d[k] = v`: replace the existing binding of `k` or append a new one,
exactly the effect of item assignment on a Python dict. -/
def dictSet : Dict → String → SVal → Dict
  | [], k, v => [(k, v)]
  | (k0, v0) :: rest, k, v =>
    if k0 = k then (k0, v) :: rest else (k0, v0) :: dictSet rest k v

/-- Models `d.update(data)`: assign every binding of `data` into `d`,
in order. -/
def pyDictUpdate (d data : Dict) : Dict :=
  data.foldl (fun acc kv => dictSet acc kv.1 kv.2) d

/-- Models `d.get(k, default)`. -/
def dictGetD (d : Dict) (k : String) (dflt : SVal) : SVal :=
  match dictLookup d k with
  | some v => v
  | none => dflt

/-- `DEFAULT_SETTINGS` from the source. -/
def DEFAULT_SETTINGS : Dict :=
  [("bulk_delimiter", .str "::"),
   ("appearance_mode", .str "System"),
   ("color_theme", .str "blue"),
   ("font_family", .str "Poppins"),
   ("printer_ip", .str ""),
   ("mqtt_host", .str ""),
   ("mqtt_port", .int 8883),
   ("mqtt_user", .str ""),
   ("mqtt_pass", .str ""),
   ("mqtt_topic", .str "Prn20B1B50C2199"),
   ("mqtt_use_tls", .bool true)]

/-- Models `load_settings()`.  `fileData` is the parsed JSON object of
`printer_settings.json`: `none` when the file is absent or
`json.load` raised (the `except` branch), `some data` when it parsed
to an object.  The source copies the defaults and calls
`defaults.update(data)`. -/
def load_settings (fileData : Option Dict) : Dict :=
  match fileData with
  | none => DEFAULT_SETTINGS
  | some data => pyDictUpdate DEFAULT_SETTINGS data

/-- Models `save_settings(data)` as a state transformer.  The process
state is the in-memory `APP_SETTINGS` dict (`app`) and the persisted
file contents (`persisted`); `writeOk` tells whether the
`open`/`json.dump` step succeeds (its failure is the `except` branch
returning `False`).  The source runs `APP_SETTINGS.update(data)`
before attempting the write.  Result: (new in-memory settings, new
persisted contents, returned boolean). -/
def save_settings (app : Dict) (data : Dict) (persisted : Dict)
    (writeOk : Bool) : Dict × Dict × Bool :=
  let app2 := pyDictUpdate app data
  if writeOk then (app2, app2, true) else (app2, persisted, false)

/-- A 1-bit image in the image library's convention for mode "1":
`pix r c = true` means the pixel at row `r`, column `c` is white
(value 255); `false` means black (value 0). -/
structure BitImage where
  w : Nat
  h : Nat
  pix : Nat → Nat → Bool

/-- One packed byte of a raster row, as produced by
`img.tobytes(encoder_name="raw")` on a mode-"1" image: bits are packed
most-significant-bit first, a set bit encodes a white pixel, and the
padding bits past the image width are clear. -/
def rowByte (img : BitImage) (r j : Nat) : Nat :=
  (List.range 8).foldl
    (fun acc k =>
      acc + (if 8 * j + k < img.w ∧ img.pix r (8 * j + k) then 2 ^ (7 - k) else 0))
    0

/-- Models `img.tobytes(encoder_name="raw")` for a mode-"1" image:
each of the `h` rows packed into `(w + 7) / 8` bytes. -/
def tobytesRaw (img : BitImage) : List Nat :=
  ((List.range img.h).map
    (fun r => (List.range ((img.w + 7) / 8)).map (rowByte img r))).flatten

/-- Models Python's `~b & 0xFF` on a nonnegative int `b`. -/
def pyInvByte (b : Nat) : Nat :=
  255 - b % 256

/-- Models `pil_to_escpos_raster(img)`.  `w_bytes.to_bytes(2, 'little')`
and `h.to_bytes(2, 'little')` raise `OverflowError` when the value does
not fit in two bytes, so the encoding is `none` in that case; otherwise
the result is the GS v 0 header followed by the bitwise-inverted packed
bitmap. -/
def pil_to_escpos_raster (img : BitImage) : Option (List Nat) :=
  let w_bytes := (img.w + 7) / 8
  if w_bytes < 65536 ∧ img.h < 65536 then
    some ([0x1d, 0x76, 0x30, 0x00,
           w_bytes % 256, w_bytes / 256,
           img.h % 256, img.h / 256]
          ++ (tobytesRaw img).map pyInvByte)
  else
    none

/-- A network action observable from outside the process: opening the
raw TCP socket to the printer, or connecting to the MQTT broker. -/
inductive NetEvent where
  | openSocket
  | mqttConnect
deriving DecidableEq, Repr

/-- Outcomes of the external world for one delivery call: whether
`socket.create_connection` succeeds, whether `sendall`/`close` succeed,
whether `paho.mqtt.client` is importable, and whether the MQTT
connect/publish/disconnect block succeeds. -/
structure NetEnv where
  lanConnectOk : Bool
  lanSendOk : Bool
  pahoAvailable : Bool
  mqttOk : Bool

/-- The one exception kind the delivery path can leak: the
`OverflowError` raised by `int.to_bytes(2, 'little')` inside
`pil_to_escpos_raster`, which the `except OSError` handler does not
catch. -/
inductive PyErr where
  | overflow
deriving DecidableEq, Repr

/-- Models `send_lan_image(img, cut)`.  Returns the boolean result plus
the trace of network actions taken; a raised non-`OSError` exception is
an `Except.error`.  The source: an empty `printer_ip` returns `False`
immediately; socket errors (`OSError`) at connect or send return
`False`; the command bytes (`b"\x1b@" + pil_to_escpos_raster(img) +
...`) are built after the connection is open, so a raster overflow
escapes as an uncaught exception. -/
def send_lan_image (settings : Dict) (env : NetEnv) (img : BitImage)
    (cut : Bool) : Except PyErr (Bool × List NetEvent) :=
  let ip := dictGetD settings "printer_ip" (.str "")
  if pyTruthy ip = false then .ok (false, [])
  else if env.lanConnectOk = false then .ok (false, [.openSocket])
  else
    match pil_to_escpos_raster img with
    | none => .error .overflow
    | some _ =>
      if env.lanSendOk then .ok (true, [.openSocket])
      else .ok (false, [.openSocket])

/-- Models `send_mqtt_image(img, cut)`.  An empty `mqtt_host` or a
missing `paho` library returns `False` without connecting; otherwise
the connect/publish block runs under `except Exception`, returning
`True` on success and `False` on any failure.  (The PNG payload
encoding has no failure mode relevant to the claims and is not
represented in the result.) -/
def send_mqtt_image (settings : Dict) (env : NetEnv) (img : BitImage)
    (cut : Bool) : Bool × List NetEvent :=
  let host := dictGetD settings "mqtt_host" (.str "")
  if pyTruthy host = false then (false, [])
  else if env.pahoAvailable = false then (false, [])
  else if env.mqttOk then (true, [.mqttConnect])
  else (false, [.mqttConnect])

/-- Models `print_master(img, cut)`: LAN first, then MQTT, else the
failure string; the returned trace is the concatenation of the network
actions of the attempted transports. -/
def print_master (settings : Dict) (env : NetEnv) (img : BitImage)
    (cut : Bool) : Except PyErr (String × List NetEvent) :=
  match send_lan_image settings env img cut with
  | .error e => .error e
  | .ok (true, t1) => .ok ("OK (LAN)", t1)
  | .ok (false, t1) =>
    match send_mqtt_image settings env img cut with
    | (true, t2) => .ok ("OK (Cloud)", t1 ++ t2)
    | (false, t2) => .ok ("Failed (Check Settings)", t1 ++ t2)

/-- The image produced by one of the rendering paths of
`render_latex_image`, identified symbolically by the call that produced
it: `receipt t b dt` is the output of `render_receipt_image(t, b, dt)`,
`latexComposed` is the success-path composition around the compiled
formula image, `mplComposed code` is the matplotlib fallback rendering
of the (textually cleaned) source passed through
`render_composed_image`. -/
inductive RImage where
  | receipt (title : List Char) (body : List (List Char)) (add_dt : Bool)
  | latexComposed (title : List Char) (add_dt : Bool) (size : Nat × Nat)
  | mplComposed (code : List Char)
deriving DecidableEq

/-- Whether an image is an output of `render_receipt_image` (the shape
of every error receipt). -/
def isReceiptImage : RImage → Bool
  | .receipt _ _ _ => true
  | _ => false

/-- External-world outcomes for one `render_latex_image` call: presence
of the `pdf2image` library, of the `pdflatex` binary, of `matplotlib`,
and the outcome of `render_with_pdflatex` (`.ok` with the trimmed page
image's size, or `.error` with `str(e)` of the raised exception — a
compile failure, a missing tool discovered late, or a rasterization
failure). -/
structure LatexEnv where
  hasPdf2image : Bool
  hasPdflatex : Bool
  hasMatplotlib : Bool
  pdflatexResult : Except (List Char) (Nat × Nat)

/-- Models `render_matplotlib_fallback(latex_code, title, add_dt)`:
without matplotlib it degrades to a static error receipt; with it, the
source is textually cleaned, plotted and normalized (external plotting
effects abstracted into the `mplComposed` tag carrying the source). -/
def render_matplotlib_fallback (env : LatexEnv) (latex_code : List Char)
    (title : List Char) (add_dt : Bool) : RImage :=
  if env.hasMatplotlib then .mplComposed latex_code
  else .receipt "Error".toList ["No LaTeX Engine & no Matplotlib found.".toList] false

/-- Models `render_latex_image(latex_code, title, add_dt)`.  With the
toolchain present, the whole pdflatex-and-compose path runs under
`except Exception`, which degrades to
`render_receipt_image("LaTeX Error", [str(e)[:300]], False)`; without
it, the matplotlib fallback runs.  An `Except.error` result would model
an exception propagating to the caller. -/
def render_latex_image (env : LatexEnv) (latex_code : List Char)
    (title : List Char) (add_dt : Bool) : Except (List Char) RImage :=
  if env.hasPdf2image && env.hasPdflatex then
    match env.pdflatexResult with
    | .ok size => .ok (.latexComposed title add_dt size)
    | .error e => .ok (.receipt "LaTeX Error".toList [e.take 300] false)
  else
    .ok (render_matplotlib_fallback env latex_code title add_dt)

/-- Outcome of one compiler invocation: its success flag and the
contents of `ticket.log`. -/
structure CompileOutcome where
  ok : Bool
  log : List Char

/-- Result of the markup-to-image engine's compile phase. -/
inductive EngineResult where
  | success
  | fatal (msg : List Char)
deriving DecidableEq

/-- Observable orchestration trace of the compile phase: how many times
the compiler ran (always on the same generated source) and which
packages were handed to the package manager, in order. -/
structure EngineTrace where
  compiles : Nat
  installs : List (List Char)
deriving DecidableEq

/-- The bounded tail of a compiler log used in the fatal error message,
modelling Python's `log_content[-500:]`. -/
def logTail (l : List Char) : List Char :=
  l.drop (l.length - 500)

/-- Modelled from the spec: the dependency-repair loop of
`render_with_pdflatex`.  The repository's tests
(`test_suite_mock.py`, `test_robustness.py`) exercise a version of
`universal_ticket_printer.render_with_pdflatex` that parses the
compiler log for a missing package (`_parse_missing_dependencies`),
invokes the package manager (`mpm --admin --install <pkg>`) and
recompiles; that module version is not among the provided source
files, so this definition follows spec 4.3 step 3: on a failed
compile, parse the log for a missing-dependency signature; if one
names a package not yet attempted (the attempted set starts empty, so
the first find always qualifies), install it and retry the same source
exactly once; if the signature is absent, or the retry fails again
(one retry cycle only), surface a fatal error carrying the bounded
tail of the log.  `firstAttempt`/`retryAttempt` are the external
compiler's outcomes for the two possible invocations of the same
source, `parseMissing` is the log-parsing function. -/
def render_with_pdflatex_repair (firstAttempt retryAttempt : CompileOutcome)
    (parseMissing : List Char → Option (List Char)) :
    EngineResult × EngineTrace :=
  if firstAttempt.ok then (.success, ⟨1, []⟩)
  else
    match parseMissing firstAttempt.log with
    | none => (.fatal (logTail firstAttempt.log), ⟨1, []⟩)
    | some p =>
      if retryAttempt.ok then (.success, ⟨2, [p]⟩)
      else (.fatal (logTail retryAttempt.log), ⟨2, [p]⟩)

/-- The 8x8 all-black 1-bit image of the spec's protocol test vector
(mode "1": every pixel value 0). -/
def allBlack8 : BitImage :=
  ⟨8, 8, fun _ _ => false⟩

/-- A degenerate 1 px wide, 65536 px tall all-black image.  Its height
does not fit the 16-bit height field of the raster header. -/
def tallImage : BitImage :=
  ⟨1, 65536, fun _ _ => false⟩

/-- Settings with only a LAN printer address configured. -/
def lanOnlySettings : Dict :=
  [("printer_ip", .str "192.168.1.132")]

/-- Settings with a LAN printer address and an MQTT host configured. -/
def bothSettings : Dict :=
  [("printer_ip", .str "192.168.1.132"), ("mqtt_host", .str "broker.example")]

/-- An environment where every transport operation succeeds. -/
def allOkEnv : NetEnv :=
  ⟨true, true, true, true⟩

/-- An environment where the LAN socket cannot be opened but the MQTT
path works. -/
def lanDownEnv : NetEnv :=
  ⟨false, false, true, true⟩

/-- A width-measuring test font: width is the character count, line
height 10. -/
def countFont : Font :=
  ⟨fun l => l.length, 10⟩

/-- A toolchain environment where `pdflatex` is missing but matplotlib
is available. -/
def noTexEnv : LatexEnv :=
  ⟨true, false, true, .ok (100, 100)⟩

/-- A toolchain environment where the toolchain is present but the
compile step raises (`str(e)` is "boom"). -/
def failTexEnv : LatexEnv :=
  ⟨true, true, true, .error "boom".toList⟩

/-- A first compilation attempt that fails with log "aaa". -/
def firstFail : CompileOutcome :=
  ⟨false, "aaa".toList⟩

/-- A retry compilation attempt that fails with log "bbb". -/
def retryFail : CompileOutcome :=
  ⟨false, "bbb".toList⟩

/-- A log parser that reports the missing package "tcolorbox" on any
nonempty log (so the same missing package recurs after the retry). -/
def parsePkgDemo : List Char → Option (List Char) :=
  fun l => if l = [] then none else some "tcolorbox".toList

/-! ### Helper lemmas: words, joining and wrapping -/

theorem joinSp_cons (a : List Char) (l : List (List Char)) (h : l ≠ []) :
    joinSp (a :: l) = a ++ ' ' :: joinSp l := by
  cases l with
  | nil => exact absurd rfl h
  | cons x xs => rfl

theorem wrapLoop_ne_nil (font : Font) (max_px : Nat) :
    ∀ (ws : List (List Char)) (cur : List Char),
      wrapLoop font max_px cur ws ≠ [] := by
  intro ws
  induction ws with
  | nil => intro cur; simp [wrapLoop]
  | cons w ws ih =>
    intro cur
    simp only [wrapLoop]
    split
    · exact ih (cur ++ ' ' :: w)
    · simp

theorem wrapLoop_join (font : Font) (max_px : Nat) :
    ∀ (ws : List (List Char)) (cur : List Char),
      joinSp (wrapLoop font max_px cur ws) = joinSp (cur :: ws) := by
  intro ws
  induction ws with
  | nil => intro cur; rfl
  | cons w ws ih =>
    intro cur
    simp only [wrapLoop]
    split
    · rw [ih]
      cases ws with
      | nil => simp [joinSp]
      | cons x xs => simp [joinSp, List.append_assoc]
    · rw [joinSp_cons cur _ (wrapLoop_ne_nil font max_px ws w), ih]
      rw [joinSp_cons cur (w :: ws) (by simp)]

theorem wrapLoop_mem (font : Font) (max_px : Nat) :
    ∀ (ws : List (List Char)) (cur l : List Char),
      l ∈ wrapLoop font max_px cur ws →
      l = cur ∨ l ∈ ws ∨ font.measure l ≤ max_px := by
  intro ws
  induction ws with
  | nil =>
    intro cur l hl
    simp [wrapLoop] at hl
    exact Or.inl hl
  | cons w ws ih =>
    intro cur l hl
    by_cases hc : _text_len (cur ++ ' ' :: w) font ≤ max_px
    · rw [wrapLoop, if_pos hc] at hl
      rcases ih (cur ++ ' ' :: w) l hl with h | h | h
      · exact Or.inr (Or.inr (by rw [h]; exact hc))
      · exact Or.inr (Or.inl (List.mem_cons_of_mem _ h))
      · exact Or.inr (Or.inr h)
    · rw [wrapLoop, if_neg hc] at hl
      rcases List.mem_cons.mp hl with h | h
      · exact Or.inl h
      · rcases ih w l h with h2 | h2 | h2
        · exact Or.inr (Or.inl (h2 ▸ List.mem_cons_self _ _))
        · exact Or.inr (Or.inl (List.mem_cons_of_mem _ h2))
        · exact Or.inr (Or.inr h2)

theorem joinSp_append_single (w : List Char) :
    ∀ (c0 : List (List Char)), c0 ≠ [] →
      joinSp (c0 ++ [w]) = joinSp c0 ++ ' ' :: w := by
  intro c0
  induction c0 with
  | nil => intro h; exact absurd rfl h
  | cons x c0 ih =>
    intro _
    cases c0 with
    | nil => simp [joinSp]
    | cons y ys =>
      have hy : (y :: ys : List (List Char)) ≠ [] := by simp
      have h1 : (y :: ys) ++ [w] ≠ ([] : List (List Char)) := by simp
      rw [List.cons_append, joinSp_cons x _ h1, joinSp_cons x _ hy, ih hy]
      simp

theorem wrapLoop_chunks (font : Font) (max_px : Nat) :
    ∀ (ws : List (List Char)) (c0 : List (List Char)), c0 ≠ [] →
      ∃ chunks : List (List (List Char)),
        (∀ c ∈ chunks, c ≠ []) ∧
        chunks.flatten = c0 ++ ws ∧
        wrapLoop font max_px (joinSp c0) ws = chunks.map joinSp := by
  intro ws
  induction ws with
  | nil =>
    intro c0 h0
    exact ⟨[c0], by simpa using h0, by simp, by simp [wrapLoop]⟩
  | cons w ws ih =>
    intro c0 h0
    simp only [wrapLoop]
    split
    · rw [show joinSp c0 ++ ' ' :: w = joinSp (c0 ++ [w]) from
        (joinSp_append_single w c0 h0).symm]
      obtain ⟨chunks, hne, hflat, heq⟩ := ih (c0 ++ [w]) (by simp)
      exact ⟨chunks, hne, by simp [hflat], heq⟩
    · obtain ⟨chunks, hne, hflat, heq⟩ := ih [w] (by simp)
      refine ⟨c0 :: chunks, ?_, ?_, ?_⟩
      · intro c hc
        rcases List.mem_cons.mp hc with h | h
        · exact h ▸ h0
        · exact hne c h
      · simp [hflat]
      · have hw : wrapLoop font max_px (joinSp [w]) ws = wrapLoop font max_px w ws := rfl
        rw [← hw, heq]
        simp

theorem splitWsAux_sound :
    ∀ (s cur : List Char), (∀ c ∈ cur, pySpace c = false) →
      ∀ w ∈ splitWsAux cur s, w ≠ [] ∧ ∀ c ∈ w, pySpace c = false := by
  intro s
  induction s with
  | nil =>
    intro cur hcur w hw
    by_cases hc : cur = []
    · rw [splitWsAux, if_pos hc] at hw
      simp at hw
    · rw [splitWsAux, if_neg hc] at hw
      have hwe : w = cur.reverse := by simpa using hw
      subst hwe
      refine ⟨by simpa using hc, ?_⟩
      intro x hx
      exact hcur x (List.mem_reverse.mp hx)
  | cons c cs ih =>
    intro cur hcur w hw
    by_cases hsp : pySpace c
    · by_cases hc : cur = []
      · rw [splitWsAux, if_pos hsp, if_pos hc] at hw
        exact ih [] (by simp) w hw
      · rw [splitWsAux, if_pos hsp, if_neg hc] at hw
        rcases List.mem_cons.mp hw with h | h
        · subst h
          refine ⟨by simpa using hc, ?_⟩
          intro x hx
          exact hcur x (List.mem_reverse.mp hx)
        · exact ih [] (by simp) w h
    · rw [splitWsAux, if_neg hsp] at hw
      refine ih (c :: cur) ?_ w hw
      intro x hx
      rcases List.mem_cons.mp hx with h | h
      · exact h ▸ (Bool.not_eq_true _).mp hsp
      · exact hcur x h

theorem splitWs_sound (s : List Char) :
    ∀ w ∈ splitWs s, w ≠ [] ∧ ∀ c ∈ w, pySpace c = false :=
  splitWsAux_sound s [] (by simp)

theorem splitWsAux_word :
    ∀ (w rest cur : List Char), (∀ c ∈ w, pySpace c = false) →
      splitWsAux cur (w ++ rest) = splitWsAux (w.reverse ++ cur) rest := by
  intro w
  induction w with
  | nil => intro rest cur _; simp
  | cons c w ih =>
    intro rest cur hw
    have hc : pySpace c = false := hw c (List.mem_cons_self _ _)
    rw [List.cons_append, splitWsAux, if_neg (by simp [hc])]
    rw [ih rest (c :: cur) (fun x hx => hw x (List.mem_cons_of_mem _ hx))]
    simp

theorem splitWsAux_emit (t : List Char) :
    ∀ cur : List Char, cur ≠ [] →
      splitWsAux cur (' ' :: t) = cur.reverse :: splitWsAux [] t := by
  intro cur hcur
  rw [splitWsAux, if_pos (by simp [pySpace]), if_neg hcur]

theorem splitWs_joinSp :
    ∀ ws : List (List Char),
      (∀ w ∈ ws, w ≠ [] ∧ ∀ c ∈ w, pySpace c = false) →
      splitWs (joinSp ws) = ws := by
  intro ws
  induction ws with
  | nil => intro _; rfl
  | cons w ws ih =>
    intro h
    obtain ⟨hwne, hwsp⟩ := h w (List.mem_cons_self _ _)
    cases ws with
    | nil =>
      show splitWsAux [] w = [w]
      have h0 : splitWsAux [] w = splitWsAux [] (w ++ []) := by simp
      rw [h0, splitWsAux_word w [] [] hwsp, List.append_nil, splitWsAux,
        if_neg (by simpa using hwne)]
      simp
    | cons x xs =>
      have hj : joinSp (w :: x :: xs) = w ++ ' ' :: joinSp (x :: xs) := rfl
      show splitWsAux [] (joinSp (w :: x :: xs)) = w :: x :: xs
      rw [hj, splitWsAux_word w _ [] hwsp, List.append_nil,
        splitWsAux_emit _ w.reverse (by simpa using hwne), List.reverse_reverse]
      have := ih (fun v hv => h v (List.mem_cons_of_mem _ hv))
      exact congrArg (w :: ·) this

theorem _wrap_ne_nil (text : List Char) (font : Font) (max_px : Nat) :
    _wrap text font max_px ≠ [] := by
  rw [_wrap]
  cases splitWs text with
  | nil => simp
  | cons w ws => exact wrapLoop_ne_nil font max_px ws w

theorem pyStrip_nil : pyStrip [] = [] := rfl

/-! ### Helper lemmas: dictionaries -/

theorem dictLookup_dictSet_self :
    ∀ (d : Dict) (k : String) (v : SVal),
      dictLookup (dictSet d k v) k = some v := by
  intro d
  induction d with
  | nil => intro k v; simp [dictSet, dictLookup]
  | cons kv rest ih =>
    intro k v
    obtain ⟨k0, v0⟩ := kv
    by_cases h : k0 = k
    · rw [dictSet, if_pos h, dictLookup, if_pos h]
    · rw [dictSet, if_neg h, dictLookup, if_neg h]
      exact ih k v

theorem dictLookup_dictSet_ne :
    ∀ (d : Dict) (k' k : String) (v : SVal), k' ≠ k →
      dictLookup (dictSet d k' v) k = dictLookup d k := by
  intro d
  induction d with
  | nil =>
    intro k' k v hne
    simp [dictSet, dictLookup, hne]
  | cons kv rest ih =>
    intro k' k v hne
    obtain ⟨k0, v0⟩ := kv
    by_cases h : k0 = k'
    · have hk0 : k0 ≠ k := by rw [h]; exact hne
      rw [dictSet, if_pos h]
      simp [dictLookup, hk0]
    · rw [dictSet, if_neg h]
      simp only [dictLookup]
      by_cases h2 : k0 = k
      · rw [if_pos h2, if_pos h2]
      · rw [if_neg h2, if_neg h2]
        exact ih k' k v hne

theorem dictLookup_none_of_not_mem :
    ∀ (d : Dict) (k : String), k ∉ d.map Prod.fst →
      dictLookup d k = none := by
  intro d
  induction d with
  | nil => intro k _; rfl
  | cons kv rest ih =>
    intro k hk
    obtain ⟨k0, v0⟩ := kv
    simp only [List.map_cons, List.mem_cons] at hk
    push_neg at hk
    rw [dictLookup, if_neg (Ne.symm hk.1)]
    exact ih k hk.2

theorem pyDictUpdate_lookup_none :
    ∀ (data d : Dict) (k : String), dictLookup data k = none →
      dictLookup (pyDictUpdate d data) k = dictLookup d k := by
  intro data
  induction data with
  | nil => intro d k _; rfl
  | cons kv rest ih =>
    intro d k hk
    obtain ⟨k0, v0⟩ := kv
    rw [dictLookup] at hk
    by_cases h : k0 = k
    · rw [if_pos h] at hk; cases hk
    · rw [if_neg h] at hk
      show dictLookup (pyDictUpdate (dictSet d k0 v0) rest) k = dictLookup d k
      rw [ih (dictSet d k0 v0) k hk]
      exact dictLookup_dictSet_ne d k0 k v0 h

theorem pyDictUpdate_lookup_some :
    ∀ (data d : Dict) (k : String) (v : SVal),
      (data.map Prod.fst).Nodup → dictLookup data k = some v →
      dictLookup (pyDictUpdate d data) k = some v := by
  intro data
  induction data with
  | nil => intro d k v _ hk; cases hk
  | cons kv rest ih =>
    intro d k v hnd hk
    obtain ⟨k0, v0⟩ := kv
    simp only [List.map_cons, List.nodup_cons] at hnd
    rw [dictLookup] at hk
    by_cases h : k0 = k
    · rw [if_pos h] at hk
      injection hk with hv
      subst hv
      show dictLookup (pyDictUpdate (dictSet d k0 v0) rest) k = some v0
      have hrest : dictLookup rest k = none :=
        dictLookup_none_of_not_mem rest k (h ▸ hnd.1)
      rw [pyDictUpdate_lookup_none rest (dictSet d k0 v0) k hrest, h,
        dictLookup_dictSet_self]
    · rw [if_neg h] at hk
      exact ih (dictSet d k0 v0) k v hnd.2 hk

/-! ### Helper lemmas: raster geometry -/

theorem sum_map_const {α : Type} (l : List α) (n : Nat) :
    (l.map (fun _ => n)).sum = l.length * n := by
  induction l with
  | nil => simp
  | cons x xs ih => simp [ih, Nat.succ_mul, Nat.add_comm]

theorem tobytesRaw_length (img : BitImage) :
    (tobytesRaw img).length = img.h * ((img.w + 7) / 8) := by
  rw [tobytesRaw, List.length_flatten, List.map_map]
  have h1 : (List.length ∘ fun r => (List.range ((img.w + 7) / 8)).map (rowByte img r))
      = fun _ => (img.w + 7) / 8 := by
    funext r
    simp
  rw [h1, sum_map_const, List.length_range]

/-! ### Claim theorems -/

/-- Claim C5: every line produced by `_wrap` measures at most the
maximum width, words are never split across lines (each line is the
space-join of a block of consecutive input words), and the only
permitted overflow is a line consisting of a single input word whose
own measured width exceeds the maximum.  The hypothesis
`font.measure [] = 0` states that the font reports width 0 for the
empty string, as `int(font.getlength(""))` does. -/
theorem claim_c5 (font : Font) (max_px : Nat) (text : List Char)
    (h0 : font.measure [] = 0) :
    (∀ l ∈ _wrap text font max_px,
        font.measure l ≤ max_px ∨ l ∈ splitWs text) ∧
    ∃ chunks : List (List (List Char)),
      chunks.flatten = splitWs text ∧
      _wrap text font max_px = chunks.map joinSp := by
  cases hs : splitWs text with
  | nil =>
    constructor
    · intro l hl
      simp only [_wrap, hs] at hl
      simp at hl
      subst hl
      exact Or.inl (by rw [h0]; exact Nat.zero_le _)
    · refine ⟨[[]], by simp [hs], ?_⟩
      simp only [_wrap, hs]
      simp [joinSp]
  | cons w ws =>
    constructor
    · intro l hl
      simp only [_wrap, hs] at hl
      rcases wrapLoop_mem font max_px ws w l hl with h | h | h
      · exact Or.inr (by rw [h]; exact List.mem_cons_self _ _)
      · exact Or.inr (List.mem_cons_of_mem _ h)
      · exact Or.inl h
    · obtain ⟨chunks, _, hflat, heq⟩ :=
        wrapLoop_chunks font max_px ws [w] (by simp)
      refine ⟨chunks, by simp [hs, hflat], ?_⟩
      simp only [_wrap, hs]
      exact heq

/-- Witness for C5 at a concrete font, width and text. -/
theorem claim_c5_witness :
    countFont.measure [] = 0 ∧
    ((∀ l ∈ _wrap "aa bb cc".toList countFont 5,
         countFont.measure l ≤ 5 ∨ l ∈ splitWs "aa bb cc".toList) ∧
     ∃ chunks : List (List (List Char)),
       chunks.flatten = splitWs "aa bb cc".toList ∧
       _wrap "aa bb cc".toList countFont 5 = chunks.map joinSp) :=
  ⟨rfl, claim_c5 countFont 5 "aa bb cc".toList rfl⟩

/-- Claim C6: joining the wrapped lines with single spaces and
splitting on whitespace reconstructs exactly the whitespace-delimited
word sequence of the original input. -/
theorem claim_c6 (font : Font) (max_px : Nat) (text : List Char) :
    splitWs (joinSp (_wrap text font max_px)) = splitWs text := by
  have hjoin : joinSp (_wrap text font max_px) = joinSp (splitWs text) := by
    cases hs : splitWs text with
    | nil => simp only [_wrap, hs]; rfl
    | cons w ws =>
      simp only [_wrap, hs]
      exact wrapLoop_join font max_px ws w
  rw [hjoin, splitWs_joinSp (splitWs text) (splitWs_sound text)]

/-- Claim C7: the canvas of `render_receipt_image` is exactly 576 px
wide and its height is the exact sum of top margin, title block
(wrapped-line count times title line height plus the 10 px trailing
gap, present exactly when the title is non-blank), timestamp line
height when requested, body contribution (wrapped body line count
times body line height) and bottom margin, floored at 100 px. -/
theorem claim_c7 (fontTitle fontText fontTime : Font) (title : List Char)
    (body_lines : List (List Char)) (add_dt : Bool) :
    render_receipt_image fontTitle fontText fontTime title body_lines add_dt =
      (576,
        max (28
          + (if pyStrip title ≠ [] then
               (_wrap (pyStrip title) fontTitle 540).length
                 * fontTitle.lineHeight + 10
             else 0)
          + (if add_dt then fontTime.lineHeight else 0)
          + (body_lines.map (fun l => _wrap l fontText 540)).flatten.length
              * fontText.lineHeight
          + 40) 100) := by
  have hw : PRINT_WIDTH_PX - MARGIN_L - MARGIN_R = 540 := rfl
  simp only [render_receipt_image, hw]
  by_cases hstrip : pyStrip title = []
  · have hcond : ¬(title ≠ [] ∧ pyStrip title ≠ []) := by simp [hstrip]
    simp only [if_neg hcond, if_neg (by simp : ¬(([] : List (List Char)) ≠ []))]
    by_cases hbody :
        (body_lines.map (fun l => _wrap l fontText 540)).flatten = []
    · simp only [if_neg (by simp [hbody] :
        ¬(body_lines.map (fun l => _wrap l fontText 540)).flatten ≠ [])]
      cases add_dt <;>
        simp only [if_pos hstrip, if_neg (by simp : ¬False), hbody,
          Prod.mk.injEq, PRINT_WIDTH_PX, MARGIN_T, MARGIN_B, if_true,
          if_false, List.length_nil, ite_true, ite_false] <;>
        refine ⟨by trivial, ?_⟩ <;> simp [hstrip] <;> omega
    · simp only [if_pos (show
        (body_lines.map (fun l => _wrap l fontText 540)).flatten ≠ [] from hbody)]
      cases add_dt <;>
        simp only [Prod.mk.injEq, PRINT_WIDTH_PX, MARGIN_T, MARGIN_B,
          ite_true, ite_false] <;>
        refine ⟨by trivial, ?_⟩ <;> simp [hstrip] <;> omega
  · have htitle : title ≠ [] := fun he => hstrip (by rw [he]; rfl)
    simp only [if_pos (show title ≠ [] ∧ pyStrip title ≠ [] from ⟨htitle, hstrip⟩),
      if_pos (show _wrap (pyStrip title) fontTitle 540 ≠ [] from
        _wrap_ne_nil (pyStrip title) fontTitle 540)]
    by_cases hbody :
        (body_lines.map (fun l => _wrap l fontText 540)).flatten = []
    · simp only [if_neg (by simp [hbody] :
        ¬(body_lines.map (fun l => _wrap l fontText 540)).flatten ≠ [])]
      cases add_dt <;>
        simp only [Prod.mk.injEq, PRINT_WIDTH_PX, MARGIN_T, MARGIN_B,
          hbody, List.length_nil, ite_true, ite_false] <;>
        refine ⟨by trivial, ?_⟩ <;> simp [hstrip] <;> omega
    · simp only [if_pos (show
        (body_lines.map (fun l => _wrap l fontText 540)).flatten ≠ [] from hbody)]
      cases add_dt <;>
        simp only [Prod.mk.injEq, PRINT_WIDTH_PX, MARGIN_T, MARGIN_B,
          ite_true, ite_false] <;>
        refine ⟨by trivial, ?_⟩ <;> simp [hstrip] <;> omega

/-- Claim C2 counterexample: on the 8x8 all-black mode-"1" image the
image library packs black pixels as 0-bits, so after the bitwise
inversion the eight payload bytes are 0xFF, not 0x00 as the claim's
test vector asserts. -/
theorem claim_c2_counterexample :
    pil_to_escpos_raster allBlack8 ≠
      some ([0x1d, 0x76, 0x30, 0x00, 1, 0, 8, 0] ++ List.replicate 8 0) := by
  decide

/-- Claim C2 (amended): for every 1-bit image whose width-in-bytes and
height fit the 16-bit header fields, the raster command is the GS v 0
header carrying width-in-bytes `ceil(w/8)` and the height as
little-endian 16-bit fields, followed by the packed bitmap with every
byte bitwise-inverted (one byte per 8 pixels per row); on the 8x8
all-black image the header declares width-bytes 1 and height 8 and the
eight payload bytes are all 0xFF. -/
theorem claim_c2_amended (img : BitImage)
    (hwb : (img.w + 7) / 8 < 65536) (hh : img.h < 65536) :
    (pil_to_escpos_raster img =
        some ([0x1d, 0x76, 0x30, 0x00,
               ((img.w + 7) / 8) % 256, ((img.w + 7) / 8) / 256,
               img.h % 256, img.h / 256]
              ++ (tobytesRaw img).map pyInvByte)
      ∧ (img.w + 7) / 8 = img.w / 8 + (if img.w % 8 = 0 then 0 else 1)
      ∧ ((tobytesRaw img).map pyInvByte).length = ((img.w + 7) / 8) * img.h)
    ∧ pil_to_escpos_raster allBlack8 =
        some ([0x1d, 0x76, 0x30, 0x00, 1, 0, 8, 0] ++ List.replicate 8 255) := by
  refine ⟨⟨?_, ?_, ?_⟩, by decide⟩
  · rw [pil_to_escpos_raster]
    simp only [if_pos (And.intro hwb hh)]
  · rcases eq_or_ne (img.w % 8) 0 with h | h <;> simp [h] <;> omega
  · rw [List.length_map, tobytesRaw_length]
    ring

/-- Witness for the amended C2 at the all-black 8x8 image. -/
theorem claim_c2_witness :
    (allBlack8.w + 7) / 8 < 65536 ∧ allBlack8.h < 65536 ∧
    pil_to_escpos_raster allBlack8 =
      some ([0x1d, 0x76, 0x30, 0x00,
             ((allBlack8.w + 7) / 8) % 256, ((allBlack8.w + 7) / 8) / 256,
             allBlack8.h % 256, allBlack8.h / 256]
            ++ (tobytesRaw allBlack8).map pyInvByte) :=
  ⟨by decide, by decide,
    (claim_c2_amended allBlack8 (by decide) (by decide)).1.1⟩

theorem send_lan_cases (settings : Dict) (env : NetEnv) (img : BitImage)
    (cut : Bool) (bs : List Nat) (hbs : pil_to_escpos_raster img = some bs) :
    send_lan_image settings env img cut = .ok (true, [.openSocket]) ∨
    send_lan_image settings env img cut = .ok (false, []) ∨
    send_lan_image settings env img cut = .ok (false, [.openSocket]) := by
  rw [send_lan_image]
  by_cases h1 : pyTruthy (dictGetD settings "printer_ip" (.str "")) = false
  · rw [if_pos h1]
    exact Or.inr (Or.inl rfl)
  · rw [if_neg h1]
    by_cases h2 : env.lanConnectOk = false
    · rw [if_pos h2]
      exact Or.inr (Or.inr rfl)
    · rw [if_neg h2, hbs]
      by_cases h3 : env.lanSendOk
      · rw [if_pos h3]
        exact Or.inl rfl
      · rw [if_neg h3]
        exact Or.inr (Or.inr rfl)

theorem send_mqtt_cases (settings : Dict) (env : NetEnv) (img : BitImage)
    (cut : Bool) :
    send_mqtt_image settings env img cut = (true, [.mqttConnect]) ∨
    send_mqtt_image settings env img cut = (false, []) ∨
    send_mqtt_image settings env img cut = (false, [.mqttConnect]) := by
  rw [send_mqtt_image]
  by_cases h1 : pyTruthy (dictGetD settings "mqtt_host" (.str "")) = false
  · rw [if_pos h1]
    exact Or.inr (Or.inl rfl)
  · rw [if_neg h1]
    by_cases h2 : env.pahoAvailable = false
    · rw [if_pos h2]
      exact Or.inr (Or.inl rfl)
    · rw [if_neg h2]
      by_cases h3 : env.mqttOk
      · rw [if_pos h3]
        exact Or.inl rfl
      · rw [if_neg h3]
        exact Or.inr (Or.inr rfl)

/-- Claim C3 counterexample: with a configured printer address, a
reachable socket and a 1x65536 image, the height does not fit the
16-bit header field, so building the command bytes raises an
`OverflowError` that the `except OSError` handler does not catch:
`print_master` propagates an exception instead of returning one of the
three outcome strings. -/
theorem claim_c3_counterexample :
    print_master lanOnlySettings allOkEnv tallImage true =
      .error .overflow := rfl

theorem send_lan_not_ok_of_fail (settings : Dict) (env : NetEnv)
    (img : BitImage) (cut : Bool)
    (hfail : pyTruthy (dictGetD settings "printer_ip" (.str "")) = false ∨
      env.lanConnectOk = false ∨ env.lanSendOk = false) :
    ∀ t, send_lan_image settings env img cut ≠ .ok (true, t) := by
  intro t h
  rw [send_lan_image] at h
  by_cases h1 : pyTruthy (dictGetD settings "printer_ip" (.str "")) = false
  · rw [if_pos h1] at h
    simp at h
  · rw [if_neg h1] at h
    by_cases h2 : env.lanConnectOk = false
    · rw [if_pos h2] at h
      simp at h
    · rw [if_neg h2] at h
      cases hr : pil_to_escpos_raster img with
      | none =>
        rw [hr] at h
        simp at h
      | some bs =>
        rw [hr] at h
        rcases hfail with hf | hf | hf
        · exact h1 hf
        · exact h2 hf
        · rw [if_neg (by simp [hf])] at h
          simp at h

/-- Claim C3 (amended): for every image whose width-in-bytes and height
fit the 16-bit raster header fields, `print_master` attempts local
delivery first; local success yields "OK (LAN)" with no broker
connection; a skipped (no address) or socket-failed local attempt
followed by a working cloud configuration yields "OK (Cloud)"; and the
call always returns one of the three outcome strings without an
exception.  (For oversized images with an open socket the header
encoding raises an uncaught `OverflowError`, per the counterexample.) -/
theorem claim_c3_amended (settings : Dict) (env : NetEnv) (img : BitImage)
    (cut : Bool) (hwb : (img.w + 7) / 8 < 65536) (hh : img.h < 65536) :
    (pyTruthy (dictGetD settings "printer_ip" (.str "")) = true →
      env.lanConnectOk = true → env.lanSendOk = true →
      print_master settings env img cut = .ok ("OK (LAN)", [.openSocket]))
    ∧ (∀ s t, print_master settings env img cut = .ok (s, t) →
        s = "OK (LAN)" → NetEvent.mqttConnect ∉ t)
    ∧ ((pyTruthy (dictGetD settings "printer_ip" (.str "")) = false ∨
          env.lanConnectOk = false ∨ env.lanSendOk = false) →
        pyTruthy (dictGetD settings "mqtt_host" (.str "")) = true →
        env.pahoAvailable = true → env.mqttOk = true →
        ∃ t, print_master settings env img cut = .ok ("OK (Cloud)", t))
    ∧ (∃ s t, print_master settings env img cut = .ok (s, t) ∧
        (s = "OK (LAN)" ∨ s = "OK (Cloud)" ∨ s = "Failed (Check Settings)")) := by
  obtain ⟨bs, hbs⟩ : ∃ bs, pil_to_escpos_raster img = some bs := by
    rw [pil_to_escpos_raster]
    exact ⟨_, by rw [if_pos (And.intro hwb hh)]⟩
  refine ⟨?_, ?_, ?_, ?_⟩
  · intro hip hc hs
    have hlan : send_lan_image settings env img cut = .ok (true, [.openSocket]) := by
      rw [send_lan_image, if_neg (by simp [hip]), if_neg (by simp [hc]), hbs,
        if_pos hs]
    simp [print_master, hlan]
  · intro s t hres hlanstr
    rcases send_lan_cases settings env img cut bs hbs with hl | hl | hl
    · simp only [print_master, hl] at hres
      obtain ⟨hs, ht⟩ := Prod.mk.injEq .. ▸ (Except.ok.injEq .. ▸ hres)
      subst ht
      simp
    · simp only [print_master, hl] at hres
      rcases send_mqtt_cases settings env img cut with hm | hm | hm <;>
        rw [hm] at hres <;>
        obtain ⟨hs, ht⟩ := Prod.mk.injEq .. ▸ (Except.ok.injEq .. ▸ hres) <;>
        rw [← hs] at hlanstr <;> simp at hlanstr
    · simp only [print_master, hl] at hres
      rcases send_mqtt_cases settings env img cut with hm | hm | hm <;>
        rw [hm] at hres <;>
        obtain ⟨hs, ht⟩ := Prod.mk.injEq .. ▸ (Except.ok.injEq .. ▸ hres) <;>
        rw [← hs] at hlanstr <;> simp at hlanstr
  · intro hfail hhost hpaho hmok
    have hmq : send_mqtt_image settings env img cut = (true, [.mqttConnect]) := by
      rw [send_mqtt_image, if_neg (by simp [hhost]), if_neg (by simp [hpaho]),
        if_pos hmok]
    rcases send_lan_cases settings env img cut bs hbs with hl | hl | hl
    · exact absurd hl (send_lan_not_ok_of_fail settings env img cut hfail _)
    · exact ⟨[] ++ [.mqttConnect], by simp [print_master, hl, hmq]⟩
    · exact ⟨[.openSocket] ++ [.mqttConnect], by simp [print_master, hl, hmq]⟩
  · rcases send_lan_cases settings env img cut bs hbs with hl | hl | hl
    · exact ⟨"OK (LAN)", [.openSocket], by simp [print_master, hl], Or.inl rfl⟩
    · rcases send_mqtt_cases settings env img cut with hm | hm | hm
      · exact ⟨"OK (Cloud)", [] ++ [.mqttConnect],
          by simp [print_master, hl, hm], Or.inr (Or.inl rfl)⟩
      · exact ⟨"Failed (Check Settings)", [] ++ [],
          by simp [print_master, hl, hm], Or.inr (Or.inr rfl)⟩
      · exact ⟨"Failed (Check Settings)", [] ++ [.mqttConnect],
          by simp [print_master, hl, hm], Or.inr (Or.inr rfl)⟩
    · rcases send_mqtt_cases settings env img cut with hm | hm | hm
      · exact ⟨"OK (Cloud)", [.openSocket] ++ [.mqttConnect],
          by simp [print_master, hl, hm], Or.inr (Or.inl rfl)⟩
      · exact ⟨"Failed (Check Settings)", [.openSocket] ++ [],
          by simp [print_master, hl, hm], Or.inr (Or.inr rfl)⟩
      · exact ⟨"Failed (Check Settings)", [.openSocket] ++ [.mqttConnect],
          by simp [print_master, hl, hm], Or.inr (Or.inr rfl)⟩

/-- Witness for the amended C3: unreachable LAN socket plus a working
cloud configuration delivers via the cloud path. -/
theorem claim_c3_witness :
    ∃ t, print_master bothSettings lanDownEnv allBlack8 true =
      .ok ("OK (Cloud)", t) :=
  (claim_c3_amended bothSettings lanDownEnv allBlack8 true (by decide)
    (by decide)).2.2.1 (Or.inr (Or.inl rfl)) (by decide) rfl rfl

/-- Claim C4: with neither a printer address nor an MQTT host
configured, `print_master` returns the failure outcome and the network
trace is empty — no socket and no broker connection is opened. -/
theorem claim_c4 (settings : Dict) (env : NetEnv) (img : BitImage)
    (cut : Bool)
    (hip : pyTruthy (dictGetD settings "printer_ip" (.str "")) = false)
    (hhost : pyTruthy (dictGetD settings "mqtt_host" (.str "")) = false) :
    print_master settings env img cut =
      .ok ("Failed (Check Settings)", []) := by
  have hlan : send_lan_image settings env img cut = .ok (false, []) := by
    rw [send_lan_image, if_pos hip]
  have hmq : send_mqtt_image settings env img cut = (false, []) := by
    rw [send_mqtt_image, if_pos hhost]
  simp [print_master, hlan, hmq]

/-- Witness for C4 at the default (unconfigured) settings. -/
theorem claim_c4_witness :
    pyTruthy (dictGetD DEFAULT_SETTINGS "printer_ip" (.str "")) = false ∧
    pyTruthy (dictGetD DEFAULT_SETTINGS "mqtt_host" (.str "")) = false ∧
    print_master DEFAULT_SETTINGS allOkEnv allBlack8 true =
      .ok ("Failed (Check Settings)", []) :=
  ⟨by decide, by decide,
    claim_c4 DEFAULT_SETTINGS allOkEnv allBlack8 true (by decide) (by decide)⟩

/-- Claim C8 counterexample: an unknown key present in the settings
file is not ignored — `defaults.update(data)` merges it, so it does
appear in the loaded configuration. -/
theorem claim_c8_counterexample :
    ¬ dictLookup (load_settings (some [("zzz_custom", SVal.str "x")]))
        "zzz_custom" = none := by
  decide

/-- Claim C8 (amended): recognized keys absent from the file take their
default values, and keys present in the file — unknown ones included —
are merged into the loaded configuration with their file values (they
are not ignored). -/
theorem claim_c8_amended (data : Dict) (k : String)
    (hnd : (data.map Prod.fst).Nodup) :
    (dictLookup data k = none →
      dictLookup (load_settings (some data)) k =
        dictLookup DEFAULT_SETTINGS k)
    ∧ (∀ v, dictLookup data k = some v →
        dictLookup (load_settings (some data)) k = some v) := by
  constructor
  · intro h
    exact pyDictUpdate_lookup_none data DEFAULT_SETTINGS k h
  · intro v h
    exact pyDictUpdate_lookup_some data DEFAULT_SETTINGS k v hnd h

/-- Witness for the amended C8: a file carrying only `printer_ip`
leaves `mqtt_port` at its default and overrides `printer_ip`. -/
theorem claim_c8_witness :
    dictLookup (load_settings (some [("printer_ip", SVal.str "10.0.0.7")]))
        "mqtt_port" = dictLookup DEFAULT_SETTINGS "mqtt_port" ∧
    dictLookup (load_settings (some [("printer_ip", SVal.str "10.0.0.7")]))
        "printer_ip" = some (SVal.str "10.0.0.7") :=
  ⟨(claim_c8_amended [("printer_ip", SVal.str "10.0.0.7")] "mqtt_port"
      (by decide)).1 (by decide),
   (claim_c8_amended [("printer_ip", SVal.str "10.0.0.7")] "printer_ip"
      (by decide)).2 (SVal.str "10.0.0.7") (by decide)⟩

/-- Claim C9 counterexample: when the typesetting compiler is absent
but matplotlib is present, `render_latex_image` returns the matplotlib
rendering of the user's source — not an error-receipt image carrying a
truncated error or log excerpt. -/
theorem claim_c9_counterexample :
    render_latex_image noTexEnv "x".toList [] false =
      .ok (RImage.mplComposed "x".toList) ∧
    isReceiptImage (RImage.mplComposed "x".toList) = false :=
  ⟨rfl, rfl⟩

/-- Claim C9 (amended): `render_latex_image` never propagates an
exception; when the toolchain is present and the compile/rasterize
step fails it returns the error receipt
`render_receipt_image("LaTeX Error", [str(e)[:300]], False)`; when the
toolchain is absent it returns the degraded matplotlib rendering of
the source, or a static error receipt when matplotlib is missing
too. -/
theorem claim_c9_amended (env : LatexEnv) (latex_code title : List Char)
    (add_dt : Bool) :
    (∃ i, render_latex_image env latex_code title add_dt = .ok i)
    ∧ (∀ e, env.hasPdf2image = true → env.hasPdflatex = true →
        env.pdflatexResult = .error e →
        render_latex_image env latex_code title add_dt =
          .ok (.receipt "LaTeX Error".toList [e.take 300] false))
    ∧ (env.hasPdf2image = false ∨ env.hasPdflatex = false →
        render_latex_image env latex_code title add_dt =
          .ok (if env.hasMatplotlib then .mplComposed latex_code
               else .receipt "Error".toList
                 ["No LaTeX Engine & no Matplotlib found.".toList] false)) := by
  refine ⟨?_, ?_, ?_⟩
  · rw [render_latex_image]
    by_cases h : (env.hasPdf2image && env.hasPdflatex) = true
    · rw [if_pos h]
      cases hres : env.pdflatexResult with
      | ok size => exact ⟨_, rfl⟩
      | error e => exact ⟨_, rfl⟩
    · rw [if_neg h]
      exact ⟨_, rfl⟩
  · intro e h1 h2 hres
    rw [render_latex_image, if_pos (by rw [h1, h2]; rfl), hres]
  · intro h
    have hb : (env.hasPdf2image && env.hasPdflatex) = false := by
      rcases h with h | h <;> simp [h]
    rw [render_latex_image, if_neg (by simp [hb]), render_matplotlib_fallback]

/-- Witness for the amended C9: a compile failure with message "boom"
yields the error receipt with the truncated message. -/
theorem claim_c9_witness :
    render_latex_image failTexEnv "x".toList [] false =
      .ok (.receipt "LaTeX Error".toList [("boom".toList).take 300] false) :=
  (claim_c9_amended failTexEnv "x".toList [] false).2.1 "boom".toList
    rfl rfl rfl

/-- Claim C10: `save_settings` merges the new data into the in-memory
settings before attempting the write, so a failed write returns
`False` with the in-memory configuration already updated and the
persisted file unchanged — no rollback, the two states diverge. -/
theorem claim_c10 (app data persisted : Dict)
    (hnd : (data.map Prod.fst).Nodup) :
    save_settings app data persisted false =
      (pyDictUpdate app data, persisted, false)
    ∧ (∀ k v, dictLookup data k = some v →
        dictLookup (save_settings app data persisted false).1 k = some v) := by
  constructor
  · rfl
  · intro k v h
    exact pyDictUpdate_lookup_some data app k v hnd h

/-- Witness for C10: a failed save of a new `printer_ip` leaves the
in-memory settings updated while the persisted contents keep the old
value — the two states diverge. -/
theorem claim_c10_witness :
    save_settings DEFAULT_SETTINGS [("printer_ip", SVal.str "10.0.0.7")]
        DEFAULT_SETTINGS false =
      (pyDictUpdate DEFAULT_SETTINGS [("printer_ip", SVal.str "10.0.0.7")],
        DEFAULT_SETTINGS, false)
    ∧ dictLookup (save_settings DEFAULT_SETTINGS
        [("printer_ip", SVal.str "10.0.0.7")] DEFAULT_SETTINGS false).1
        "printer_ip" = some (SVal.str "10.0.0.7")
    ∧ dictLookup (save_settings DEFAULT_SETTINGS
        [("printer_ip", SVal.str "10.0.0.7")] DEFAULT_SETTINGS false).2.1
        "printer_ip" = some (SVal.str "") :=
  ⟨(claim_c10 DEFAULT_SETTINGS [("printer_ip", SVal.str "10.0.0.7")]
      DEFAULT_SETTINGS (by decide)).1,
   (claim_c10 DEFAULT_SETTINGS [("printer_ip", SVal.str "10.0.0.7")]
      DEFAULT_SETTINGS (by decide)).2 "printer_ip" (SVal.str "10.0.0.7")
      (by decide),
   by decide⟩

/-- Claim C1: on a failed first compile whose log names a missing
package, the engine installs exactly that one package and recompiles
the same source exactly once (two compiler runs in total); if the
retry fails again — in particular when the same missing package
recurs — or when no missing-dependency signature is found at all, it
surfaces a terminal error carrying a bounded (at most 500 character)
tail of the compiler log instead of looping. -/
theorem claim_c1 (firstAttempt retryAttempt : CompileOutcome)
    (parseMissing : List Char → Option (List Char))
    (h1 : firstAttempt.ok = false) :
    (∀ p, parseMissing firstAttempt.log = some p →
      (render_with_pdflatex_repair firstAttempt retryAttempt
          parseMissing).2.installs = [p]
      ∧ (render_with_pdflatex_repair firstAttempt retryAttempt
          parseMissing).2.compiles = 2
      ∧ (retryAttempt.ok = false →
          (render_with_pdflatex_repair firstAttempt retryAttempt
              parseMissing).1 = .fatal (logTail retryAttempt.log)
          ∧ (logTail retryAttempt.log).length ≤ 500
          ∧ logTail retryAttempt.log <:+ retryAttempt.log)
      ∧ (retryAttempt.ok = true →
          (render_with_pdflatex_repair firstAttempt retryAttempt
              parseMissing).1 = .success))
    ∧ (parseMissing firstAttempt.log = none →
        (render_with_pdflatex_repair firstAttempt retryAttempt
            parseMissing).1 = .fatal (logTail firstAttempt.log)
        ∧ (render_with_pdflatex_repair firstAttempt retryAttempt
            parseMissing).2 = ⟨1, []⟩
        ∧ (logTail firstAttempt.log).length ≤ 500
        ∧ logTail firstAttempt.log <:+ firstAttempt.log) := by
  constructor
  · intro p hp
    have hres : render_with_pdflatex_repair firstAttempt retryAttempt
        parseMissing =
        (if retryAttempt.ok then (.success, ⟨2, [p]⟩)
         else (.fatal (logTail retryAttempt.log), ⟨2, [p]⟩)) := by
      rw [render_with_pdflatex_repair, if_neg (by simp [h1]), hp]
    by_cases hro : retryAttempt.ok = true
    · rw [if_pos hro] at hres
      exact ⟨by rw [hres], by rw [hres],
        fun hf => absurd hro (by simp [hf]),
        fun _ => by rw [hres]⟩
    · rw [if_neg hro] at hres
      refine ⟨by rw [hres], by rw [hres], fun _ => ⟨by rw [hres], ?_, ?_⟩,
        fun ht => absurd ht hro⟩
      · rw [logTail, List.length_drop]
        omega
      · exact List.drop_suffix _ _
  · intro hn
    have hres : render_with_pdflatex_repair firstAttempt retryAttempt
        parseMissing = (.fatal (logTail firstAttempt.log), ⟨1, []⟩) := by
      rw [render_with_pdflatex_repair, if_neg (by simp [h1]), hn]
    refine ⟨by rw [hres], by rw [hres], ?_, ?_⟩
    · rw [logTail, List.length_drop]
      omega
    · exact List.drop_suffix _ _

/-- Witness for C1: a failed compile reporting missing "tcolorbox",
followed by a failed retry whose log reports the same missing package,
yields exactly one install, exactly two compiler runs and a terminal
error carrying the tail of the retry log. -/
theorem claim_c1_witness :
    (render_with_pdflatex_repair firstFail retryFail
        parsePkgDemo).2.installs = ["tcolorbox".toList]
    ∧ (render_with_pdflatex_repair firstFail retryFail
        parsePkgDemo).2.compiles = 2
    ∧ (render_with_pdflatex_repair firstFail retryFail
        parsePkgDemo).1 = .fatal (logTail retryFail.log) := by
  have h := (claim_c1 firstFail retryFail parsePkgDemo rfl).1
    ("tcolorbox".toList) (by decide)
  exact ⟨h.1, h.2.1, (h.2.2.1 rfl).1⟩
